import Mathlib

/-!
Shallow embedding of the polysport decision-and-execution core
(`src/risk/limits.py`, `src/risk/engine.py`, `src/execution/slippage.py`,
`src/execution/engine.py`, `src/storage/db.py`, `src/execution/orders.py`,
`src/signals/types.py`).

Python floats are embedded as exact rationals (ℚ), Python ints as ℤ,
Python strings as Lean `String`.  Code that can raise is embedded in
`Except String`.  The mutable objects (`RiskEngine`, `ExecutionEngine`,
the sqlite-backed `Database`) are embedded as explicit state records and
every mutating method returns the new state.  Wall-clock time
(`datetime.now`) is passed in explicitly as a rational number of hours;
`uuid`-based order-id generation is passed in as an explicit fresh id.
-/

namespace Polysport

/-- Python `round` ties-to-even at integer precision (banker's rounding). -/
def pyRoundHalfEven (q : ℚ) : ℤ :=
  if q - (⌊q⌋ : ℚ) < 1/2 then ⌊q⌋
  else if 1/2 < q - (⌊q⌋ : ℚ) then ⌊q⌋ + 1
  else if Even ⌊q⌋ then ⌊q⌋ else ⌊q⌋ + 1

/-- Python `round(x, 2)`: round to two decimal places, ties to even. -/
def round2 (q : ℚ) : ℚ := (pyRoundHalfEven (q * 100) : ℚ) / 100

/-- Python `int(x)`: truncation toward zero. -/
def pyInt (q : ℚ) : ℤ := if 0 ≤ q then ⌊q⌋ else -⌊-q⌋

/-- Zero-pad a natural below 1000 to three digits (helper for `fmt3`). -/
def pad3 (n : ℕ) : String :=
  if n < 10 then ("00") ++ toString n
  else if n < 100 then ("0") ++ toString n
  else toString n

/-- Python f-string formatting `f"{x:.3f}"`: three decimals, ties to even. -/
def fmt3 (q : ℚ) : String :=
  let n := pyRoundHalfEven (q * 1000)
  let sign := if n < 0 then ("-") else ("")
  sign ++ toString (n.natAbs / 1000) ++ "." ++ pad3 (n.natAbs % 1000)

/-! ## `src/signals/types.py` -/

/-- Embeds `Signal` dataclass.  The open `explanation` map is embedded as an
association list of the numeric entries the execution engine reads
(`target_price`, `edge`); the creation timestamp is irrelevant to the
verified operations and omitted. -/
structure Signal where
  strategy : String
  market_id : String
  outcome_id : String
  action : String
  confidence : ℚ
  explanation : List (String × ℚ)
deriving DecidableEq

/-! ## `src/risk/limits.py` -/

/-- The dynamically-typed value of the `strategy_caps` attribute: Python
lets `RiskEngine.set_limit` overwrite the `dict[str, float] | None` field
with a bare float, so the embedding carries all three possible shapes. -/
inductive CapsVal where
  | pynone : CapsVal
  | dict (d : List (String × ℚ)) : CapsVal
  | num (q : ℚ) : CapsVal
deriving DecidableEq

/-- Embeds `RiskLimits` dataclass.  Besides the five dataclass fields, the
record carries `shadow`: the instance-dict entries that a plain `setattr`
creates for a name that is *not* a dataclass field (Python then shadows
the class-level attribute of that name — the `cap_for_strategy` method or
an inherited dunder — with the bare float).  A pristine object has
`shadow = []`. -/
structure RiskLimits where
  max_position_size : ℚ
  max_order_size : ℚ
  max_open_positions : ℤ
  max_daily_loss : ℚ
  strategy_caps : CapsVal
  shadow : List (String × ℚ)
deriving DecidableEq

/-- Dataclass defaults of `RiskLimits` (no shadowing instance attributes). -/
def RiskLimits.default : RiskLimits :=
  ⟨100, 50, 10, 100, CapsVal.pynone, []⟩

/-- Embeds `RiskLimits.cap_for_strategy`, the class function itself.
`if self.strategy_caps and strategy in self.strategy_caps` evaluates the
truthiness of the attribute first (`None`, `{}` and `0.0` are falsy);
when the attribute has been corrupted to a non-zero float the `in` test
raises `TypeError`.  The shadow-sensitive instance attribute access is
`RiskLimits.cap_for_strategy_access` below. -/
def RiskLimits.cap_for_strategy (l : RiskLimits) (strategy : String) : Except String ℚ :=
  match l.strategy_caps with
  | CapsVal.pynone => Except.ok l.max_order_size
  | CapsVal.dict d =>
      if d = [] then Except.ok l.max_order_size
      else match d.lookup strategy with
        | some v => Except.ok v
        | none => Except.ok l.max_order_size
  | CapsVal.num q =>
      if q = 0 then Except.ok l.max_order_size
      else Except.error ("TypeError: argument of type float is not iterable")

/-- Embeds the *instance attribute* call `limits.cap_for_strategy(strategy)`:
Python consults the instance dict before the class, so once `set_limit`
has shadowed the name with a float the call raises `TypeError` before the
method body can run; on an unshadowed object it is the method itself
(`cap_for_strategy_access_unshadowed`). -/
def RiskLimits.cap_for_strategy_access (l : RiskLimits) (strategy : String) :
    Except String ℚ :=
  match l.shadow.lookup ("cap_for_strategy") with
  | some _ => Except.error ("TypeError: float object is not callable")
  | none => l.cap_for_strategy strategy

/-! ## `src/risk/engine.py` -/

/-- Embeds `MIN_CONFIDENCE_THRESHOLD = 0.6`. -/
def MIN_CONFIDENCE_THRESHOLD : ℚ := 0.6

/-- Embeds `RiskDecision` dataclass. -/
structure RiskDecision where
  approved : Bool
  reason : String
deriving DecidableEq

/-- Mutable state of a `RiskEngine` instance. -/
structure RiskEngine where
  limits : RiskLimits
  trading_enabled : Bool
deriving DecidableEq

/-- Embeds `RiskEngine.__init__(limits=None)`: `self.limits = limits or
RiskLimits()`, trading OFF until explicitly enabled. -/
def RiskEngine.init (limits : Option RiskLimits) : RiskEngine :=
  ⟨limits.getD RiskLimits.default, false⟩

/-- Embeds `RiskEngine.set_trading`. -/
def RiskEngine.set_trading (e : RiskEngine) (enabled : Bool) : RiskEngine :=
  { e with trading_enabled := enabled }

/-- Python dict assignment `d[k] = v` on the association-list embedding:
any previous binding of `k` is replaced. -/
def dictSet (d : List (String × ℚ)) (k : String) (v : ℚ) : List (String × ℚ) :=
  d.filter (fun e => e.1 ≠ k) ++ [(k, v)]

/-- Embeds `param.startswith("strategy.")` combined with
`param.split("strategy.", 1)[1]`: `some rest` when the dotted form
matches, `none` otherwise. -/
def strategyParam (param : String) : Option String :=
  if param.data.take 9 = "strategy.".data then some (String.mk (param.data.drop 9))
  else none

/-- Names beyond the dataclass fields for which Python's
`hasattr(self.limits, param)` is true on a `RiskLimits` instance and for
which a plain `setattr` succeeds, creating an instance attribute that
shadows the class-level one: the `cap_for_strategy` method plus the
dataclass-generated and object-inherited dunders of a CPython 3.10
dataclass instance.  None of their current values is an `int`, so
`set_limit` stores the float unchanged. -/
def riskLimitsClassAttrs : List String :=
  ["cap_for_strategy", "__init__", "__repr__", "__eq__", "__hash__", "__str__",
   "__format__", "__sizeof__", "__dir__", "__doc__", "__module__", "__annotations__",
   "__match_args__", "__dataclass_fields__", "__dataclass_params__", "__init_subclass__",
   "__subclasshook__", "__new__", "__ne__", "__lt__", "__le__", "__gt__", "__ge__",
   "__getattribute__", "__setattr__", "__delattr__", "__reduce__", "__reduce_ex__"]

/-- Embeds `RiskEngine.set_limit`.  Negative values fail; `strategy.<name>` sets a
per-strategy cap (empty name fails); otherwise the code does a
`hasattr`/`getattr`/`setattr` dispatch over *attributes* of the
`RiskLimits` object, not just its limit fields: a dataclass field is
assigned (the integer field `max_open_positions` coerced with
`int(value)`, every other field — including `strategy_caps` itself —
stored as the float); a non-field attribute (`riskLimitsClassAttrs`) is
shadowed by an instance attribute holding the bare float, and the call
still reports success; the interpreter-managed descriptors `__class__`,
`__dict__` and `__weakref__` make the `setattr` itself raise.  Only a
name that is no attribute at all fails.  Item assignment into a
float-corrupted `strategy_caps` raises `TypeError`. -/
def RiskEngine.set_limit (e : RiskEngine) (param : String) (value : ℚ) :
    Except String (Bool × RiskEngine) :=
  if value < 0 then Except.ok (false, e)
  else match strategyParam param with
    | some strategy =>
        if strategy = "" then Except.ok (false, e)
        else match e.limits.strategy_caps with
          | CapsVal.pynone =>
              Except.ok (true,
                { e with limits := { e.limits with strategy_caps := CapsVal.dict (dictSet [] strategy value) } })
          | CapsVal.dict d =>
              Except.ok (true,
                { e with limits := { e.limits with strategy_caps := CapsVal.dict (dictSet d strategy value) } })
          | CapsVal.num _ =>
              Except.error ("TypeError: float object does not support item assignment")
    | none =>
        if param = "max_position_size" then
          Except.ok (true, { e with limits := { e.limits with max_position_size := value } })
        else if param = "max_order_size" then
          Except.ok (true, { e with limits := { e.limits with max_order_size := value } })
        else if param = "max_open_positions" then
          Except.ok (true, { e with limits := { e.limits with max_open_positions := pyInt value } })
        else if param = "max_daily_loss" then
          Except.ok (true, { e with limits := { e.limits with max_daily_loss := value } })
        else if param = "strategy_caps" then
          Except.ok (true, { e with limits := { e.limits with strategy_caps := CapsVal.num value } })
        else if param ∈ riskLimitsClassAttrs then
          Except.ok (true,
            { e with limits := { e.limits with shadow := dictSet e.limits.shadow param value } })
        else if param = "__class__" then
          Except.error ("TypeError: class attribute must be set to a class")
        else if param = "__dict__" then
          Except.error ("TypeError: dict attribute must be set to a dictionary")
        else if param = "__weakref__" then
          Except.error ("AttributeError: weakref attribute is not writable")
        else Except.ok (false, e)

/-- Embeds `RiskEngine.evaluate`: the fixed short-circuiting pipeline of risk
checks.  The strategy-cap lookup can raise when `strategy_caps` has been
corrupted, so the result lives in `Except`. -/
def RiskEngine.evaluate (e : RiskEngine) (signal : Signal) (current_positions : ℤ)
    (daily_pnl order_size position_size : ℚ) : Except String RiskDecision :=
  if ¬ e.trading_enabled then Except.ok ⟨false, "global_kill_switch"⟩
  else if daily_pnl ≤ -e.limits.max_daily_loss then Except.ok ⟨false, "max_daily_loss_exceeded"⟩
  else if 0 < order_size ∧ e.limits.max_order_size < order_size then
    Except.ok ⟨false, "order_size_exceeded"⟩
  else if e.limits.max_position_size < position_size + order_size then
    Except.ok ⟨false, "max_position_size_exceeded"⟩
  else if e.limits.max_open_positions ≤ current_positions then
    Except.ok ⟨false, "max_open_positions"⟩
  else match e.limits.cap_for_strategy signal.strategy with
    | Except.error msg => Except.error msg
    | Except.ok strategy_cap =>
        if 0 < order_size ∧ strategy_cap < order_size then
          Except.ok ⟨false, "strategy_cap_exceeded"⟩
        else if signal.confidence < MIN_CONFIDENCE_THRESHOLD then
          Except.ok ⟨false, "confidence_below_threshold"⟩
        else Except.ok ⟨true, "approved"⟩

/-! ## `src/execution/slippage.py` -/

/-- Embeds `within_slippage(expected_price, actual_price, max_slippage)`. -/
def within_slippage (expected_price actual_price max_slippage : ℚ) : Bool :=
  if expected_price ≤ 0 then false
  else decide (|actual_price - expected_price| / expected_price ≤ max_slippage)

/-! ## `src/execution/orders.py` -/

/-- Embeds `ExecutionOrder` dataclass (the `created_at` timestamp is omitted from
the embedding; it never influences control flow). -/
structure ExecutionOrder where
  order_id : String
  market_id : String
  outcome_id : String
  side : String
  price : ℚ
  size : ℚ
  status : String
deriving DecidableEq

/-! ## `src/storage/db.py` (idempotency-key and order operations) -/

/-- A row of the `orders` table, as written by `Database.save_order`. -/
structure OrderRow where
  order_id : String
  market_id : String
  outcome_id : String
  side : String
  price : ℚ
  size : ℚ
  status : String
  strategy : Option String
deriving DecidableEq

/-- State of the sqlite `Database` relevant to the execution engine:
the `idempotency_keys` table (key, `expires_at` in hours) and the
`orders` table. -/
structure DbState where
  idempotency_keys : List (String × ℚ)
  orders : List OrderRow
deriving DecidableEq

/-- Embeds `Database.check_idempotency_key`: first `DELETE FROM idempotency_keys
WHERE expires_at < now`, then `SELECT 1 ... WHERE key = ? AND
expires_at >= now`.  Returns the membership answer and the purged table
state. -/
def DbState.check_idempotency_key (db : DbState) (key : String) (now : ℚ) :
    Bool × DbState :=
  let purged := db.idempotency_keys.filter (fun e => ¬ e.2 < now)
  (purged.any (fun e => e.1 = key ∧ now ≤ e.2), { db with idempotency_keys := purged })

/-- Embeds `Database.add_idempotency_key(key, ttl_hours=24)`: `INSERT OR REPLACE`
with `expires_at = now + ttl_hours`. -/
def DbState.add_idempotency_key (db : DbState) (key : String) (now ttl_hours : ℚ) :
    DbState :=
  { db with idempotency_keys :=
      db.idempotency_keys.filter (fun e => e.1 ≠ key) ++ [(key, now + ttl_hours)] }

/-- Embeds `Database.save_order`: `INSERT OR REPLACE INTO orders`. -/
def DbState.save_order (db : DbState) (row : OrderRow) : DbState :=
  { db with orders := db.orders.filter (fun r => r.order_id ≠ row.order_id) ++ [row] }

/-- Embeds `Database.update_order_status`: `UPDATE orders SET status = ? WHERE
order_id = ?` — zero rows affected when the id is absent, with no error. -/
def DbState.update_order_status (db : DbState) (order_id status : String) : DbState :=
  { db with orders :=
      db.orders.map (fun r => if r.order_id = order_id then { r with status := status } else r) }

/-! ## `src/execution/engine.py` -/

/-- Embeds `DEFAULT_ORDER_SIZE = 10.0`. -/
def DEFAULT_ORDER_SIZE : ℚ := 10

/-- Embeds `DEFAULT_MAX_SLIPPAGE = 0.02`. -/
def DEFAULT_MAX_SLIPPAGE : ℚ := 0.02

/-- Embeds `OrderSizing` dataclass. -/
structure OrderSizing where
  base_size : ℚ
  confidence_scaling : Bool
  min_size : ℚ
  max_size : ℚ
deriving DecidableEq

/-- Dataclass defaults of `OrderSizing`. -/
def OrderSizing.default : OrderSizing :=
  ⟨DEFAULT_ORDER_SIZE, true, 1, 100⟩

/-- Embeds `ExecutionResult` dataclass. -/
structure ExecutionResult where
  order : Option ExecutionOrder
  status : String
  reason : String
deriving DecidableEq

/-- Mutable state of an `ExecutionEngine` instance: the optional database,
the limits and sizing configuration, paper mode, and the in-memory
fallbacks `_idempotency_keys` (a set, embedded as a duplicate-free list)
and `_open_orders` (a dict keyed by order id). -/
structure ExecutionEngine where
  db : Option DbState
  limits : RiskLimits
  sizing : OrderSizing
  paper : Bool
  idempotency_keys : List String
  open_orders : List (String × ExecutionOrder)
deriving DecidableEq

/-- Embeds `ExecutionEngine.__init__(db=None, limits=None, sizing=None)`. -/
def ExecutionEngine.init (db : Option DbState) (limits : Option RiskLimits)
    (sizing : Option OrderSizing) : ExecutionEngine :=
  ⟨db, limits.getD RiskLimits.default, sizing.getD OrderSizing.default, true, [], []⟩

/-- The confidence multiplier of `ExecutionEngine._calculate_order_size`:
`0.5 + (confidence - 0.6) * (1.5 / 0.4)`, clamped to `[0.5, 2.0]`. -/
def confidence_factor (confidence : ℚ) : ℚ :=
  max 0.5 (min 2.0 (0.5 + (confidence - 0.6) * (1.5 / 0.4)))

/-- Embeds `ExecutionEngine._calculate_order_size`: base size, optionally scaled
by confidence, capped at the strategy cap, clamped to
`[min_size, max_size]`, rounded to two decimals.  The strategy-cap lookup
can raise on a corrupted `strategy_caps`. -/
def ExecutionEngine.calculate_order_size (e : ExecutionEngine) (signal : Signal) :
    Except String ℚ :=
  let size := e.sizing.base_size
  let size := if e.sizing.confidence_scaling then size * confidence_factor signal.confidence
              else size
  match e.limits.cap_for_strategy signal.strategy with
  | Except.error msg => Except.error msg
  | Except.ok strategy_cap =>
      let size := min size strategy_cap
      let size := max e.sizing.min_size (min e.sizing.max_size size)
      Except.ok (round2 size)

/-- Embeds `ExecutionEngine._get_target_price`: explicit `target_price` in the
explanation map, else `0.5 ± edge` by action, else `0.5`. -/
def ExecutionEngine.get_target_price (signal : Signal) : ℚ :=
  match signal.explanation.lookup ("target_price") with
  | some t => t
  | none =>
      match signal.explanation.lookup ("edge") with
      | some edge => if signal.action = "buy" then 0.5 + edge else 0.5 - edge
      | none => 0.5

/-- Embeds `ExecutionEngine._check_idempotency`: database check when a database is
configured (which also purges expired rows), else in-memory set
membership. -/
def ExecutionEngine.check_idempotency (e : ExecutionEngine) (key : String) (now : ℚ) :
    Bool × ExecutionEngine :=
  match e.db with
  | some db =>
      let r := db.check_idempotency_key key now
      (r.1, { e with db := some r.2 })
  | none => (e.idempotency_keys.contains key, e)

/-- Embeds `ExecutionEngine._save_idempotency`: database upsert (default TTL 24
hours) when a database is configured, else in-memory set insertion. -/
def ExecutionEngine.save_idempotency (e : ExecutionEngine) (key : String) (now : ℚ) :
    ExecutionEngine :=
  match e.db with
  | some db => { e with db := some (db.add_idempotency_key key now 24) }
  | none =>
      if e.idempotency_keys.contains key then e
      else { e with idempotency_keys := e.idempotency_keys ++ [key] }

/-- The idempotency key `f"{strategy}:{market_id}:{outcome_id}:{action}"`. -/
def idemKey (signal : Signal) : String :=
  signal.strategy ++ ":" ++ signal.market_id ++ ":" ++ signal.outcome_id ++ ":" ++ signal.action

/-- Tail of `ExecutionEngine.submit` after all short-circuiting checks have
passed: record the idempotency key, construct the order (`paper` or
`submitted` according to mode, with the supplied fresh unique id), persist
it to the database or the in-memory map, and report success. -/
def ExecutionEngine.submitFinish (e : ExecutionEngine) (signal : Signal)
    (target_price order_size : ℚ) (fresh_order_id : String) (now : ℚ) :
    ExecutionResult × ExecutionEngine :=
  let e := e.save_idempotency (idemKey signal) now
  let order : ExecutionOrder :=
    ⟨fresh_order_id, signal.market_id, signal.outcome_id, signal.action,
      target_price, order_size, if e.paper then ("paper") else ("submitted")⟩
  let e :=
    match e.db with
    | some db =>
        { e with db := some (db.save_order
            ⟨order.order_id, order.market_id, order.outcome_id, order.side,
              order.price, order.size, order.status, some signal.strategy⟩) }
    | none => { e with open_orders := e.open_orders ++ [(order.order_id, order)] }
  (⟨some order, "submitted", "ok"⟩, e)

/-- Embeds `ExecutionEngine.submit(signal, decision, current_price=None)`:
rejected decisions pass the risk reason through; a present unexpired
idempotency key short-circuits to `duplicate`; a supplied current price
failing the slippage guard rejects without consuming the key; otherwise
the order is recorded. -/
def ExecutionEngine.submit (e : ExecutionEngine) (signal : Signal)
    (decision : RiskDecision) (current_price : Option ℚ)
    (fresh_order_id : String) (now : ℚ) :
    Except String (ExecutionResult × ExecutionEngine) :=
  if ¬ decision.approved then
    Except.ok (⟨none, "rejected", decision.reason⟩, e)
  else
    let checked := e.check_idempotency (idemKey signal) now
    if checked.1 then Except.ok (⟨none, "duplicate", "idempotent_key"⟩, checked.2)
    else
      let e := checked.2
      let target_price := ExecutionEngine.get_target_price signal
      match e.calculate_order_size signal with
      | Except.error msg => Except.error msg
      | Except.ok order_size =>
          match current_price with
          | some cp =>
              if within_slippage target_price cp DEFAULT_MAX_SLIPPAGE then
                Except.ok (e.submitFinish signal target_price order_size fresh_order_id now)
              else
                Except.ok (⟨none, "rejected",
                  "slippage_exceeded: target=" ++ fmt3 target_price ++ ", current=" ++ fmt3 cp⟩, e)
          | none =>
              Except.ok (e.submitFinish signal target_price order_size fresh_order_id now)

/-- Embeds `ExecutionEngine.cancel_order`: with a database, issue the status
update and return `True`; with the in-memory fallback, delete the entry
and return whether it was present. -/
def ExecutionEngine.cancel_order (e : ExecutionEngine) (order_id : String) :
    Bool × ExecutionEngine :=
  match e.db with
  | some db => (true, { e with db := some (db.update_order_status order_id ("cancelled")) })
  | none =>
      if e.open_orders.any (fun p => p.1 = order_id) then
        (true, { e with open_orders := e.open_orders.filter (fun p => p.1 ≠ order_id) })
      else (false, e)

/-! ## Spec-side definitions -/

/-- The risk-evaluation pipeline exactly as the specification words it
(§4.1): a fixed, short-circuiting sequence of checks where the first
failing check determines the reason code, with the applicable strategy
cap supplied as an input.  Stated separately from
`RiskEngine.evaluate` so the implementation can be proved to refine it. -/
def riskPipelineSpec (trading_enabled : Bool)
    (max_daily_loss max_order_size max_position_size : ℚ) (max_open_positions : ℤ)
    (strategy_cap confidence : ℚ) (current_positions : ℤ)
    (daily_pnl order_size position_size : ℚ) : RiskDecision :=
  if ¬ trading_enabled then ⟨false, "global_kill_switch"⟩
  else if daily_pnl ≤ -max_daily_loss then ⟨false, "max_daily_loss_exceeded"⟩
  else if 0 < order_size ∧ max_order_size < order_size then ⟨false, "order_size_exceeded"⟩
  else if max_position_size < position_size + order_size then ⟨false, "max_position_size_exceeded"⟩
  else if max_open_positions ≤ current_positions then ⟨false, "max_open_positions"⟩
  else if 0 < order_size ∧ strategy_cap < order_size then ⟨false, "strategy_cap_exceeded"⟩
  else if confidence < 0.6 then ⟨false, "confidence_below_threshold"⟩
  else ⟨true, "approved"⟩

/-- A rational that is an exact two-decimal-place value (an integer number
of cents), the shape of every realistic money bound. -/
def TwoDp (q : ℚ) : Prop := ∃ n : ℤ, q = (n : ℚ) / 100

/-- A `RiskLimits` whose `strategy_caps` attribute still has its declared
`dict | None` type, i.e. has not been corrupted to a bare float. -/
def WfCaps (l : RiskLimits) : Prop := ∀ q : ℚ, l.strategy_caps ≠ CapsVal.num q


/-- C1: `RiskEngine.evaluate` applies its checks in the fixed
short-circuiting order of the specification — trading disabled, daily
loss, order size, position size, open positions, strategy cap, confidence
— returning the first failing check's reason, else `approved`; in
particular a limits record with `max_open_positions = 5`, trading
enabled, confidence `0.7` and `current_positions = 5` yields
`approved = false` with reason `max_open_positions`. -/
theorem evaluate_pipeline_order :
    (∀ (e : RiskEngine) (s : Signal) (current_positions : ℤ)
        (daily_pnl order_size position_size cap : ℚ),
      e.limits.cap_for_strategy s.strategy = Except.ok cap →
      e.evaluate s current_positions daily_pnl order_size position_size =
        Except.ok (riskPipelineSpec e.trading_enabled e.limits.max_daily_loss
          e.limits.max_order_size e.limits.max_position_size e.limits.max_open_positions
          cap s.confidence current_positions daily_pnl order_size position_size))
    ∧ RiskEngine.evaluate ⟨{ RiskLimits.default with max_open_positions := 5 }, true⟩
        ⟨"vegas_value", "m1", "o1", "buy", 0.7, []⟩ 5 0 0 0 =
      Except.ok ⟨false, "max_open_positions"⟩ := by
  constructor
  · intro e s cp pnl osz psz cap hcap
    simp only [RiskEngine.evaluate, riskPipelineSpec, hcap, MIN_CONFIDENCE_THRESHOLD]
    split_ifs <;> rfl
  · norm_num [RiskEngine.evaluate, RiskLimits.default, RiskLimits.cap_for_strategy,
      MIN_CONFIDENCE_THRESHOLD]

/-- C1 witness: the pipeline theorem applied at a concrete engine and
signal, all hypotheses discharged. -/
theorem evaluate_pipeline_order_witness :
    RiskEngine.evaluate ⟨RiskLimits.default, false⟩ ⟨"s", "m", "o", "buy", 0.9, []⟩ 0 0 0 0 =
      Except.ok (riskPipelineSpec false 100 50 100 10 50 0.9 0 0 0 0) := by
  have h := evaluate_pipeline_order.1 ⟨RiskLimits.default, false⟩ ⟨"s", "m", "o", "buy", 0.9, []⟩
    0 0 0 0 50 (by norm_num [RiskLimits.cap_for_strategy, RiskLimits.default])
  simpa [RiskLimits.default] using h


/-- C2: a freshly constructed `RiskEngine` has trading disabled, every
evaluation with the flag still false is rejected with
`global_kill_switch` whatever the other inputs, an approval is only
possible when the flag is true, and `set_trading(true)` is the transition
that enables it. -/
theorem kill_switch_default_off :
    (∀ limits : Option RiskLimits, (RiskEngine.init limits).trading_enabled = false)
    ∧ (∀ (e : RiskEngine) (s : Signal) (current_positions : ℤ) (daily_pnl order_size position_size : ℚ),
        e.trading_enabled = false →
        e.evaluate s current_positions daily_pnl order_size position_size =
          Except.ok ⟨false, "global_kill_switch"⟩)
    ∧ (∀ (e : RiskEngine) (s : Signal) (current_positions : ℤ)
        (daily_pnl order_size position_size : ℚ) (d : RiskDecision),
        e.evaluate s current_positions daily_pnl order_size position_size = Except.ok d →
        d.approved = true → e.trading_enabled = true)
    ∧ (∀ e : RiskEngine, (e.set_trading true).trading_enabled = true) := by
  refine ⟨fun _ => rfl, ?_, ?_, fun _ => rfl⟩
  · intro e s cp pnl osz psz h
    simp [RiskEngine.evaluate, h]
  · intro e s cp pnl osz psz d hev happ
    cases h : e.trading_enabled
    · rw [RiskEngine.evaluate, h] at hev
      simp at hev
      rw [← hev] at happ
      simp at happ
    · rfl

/-- C2 witness: the default-constructed engine is disabled and a concrete
favorable signal is still rejected with `global_kill_switch`. -/
theorem kill_switch_default_off_witness :
    (RiskEngine.init none).trading_enabled = false
    ∧ (RiskEngine.init none).evaluate ⟨"s", "m", "o", "buy", 1, []⟩ 0 0 0 0 =
        Except.ok ⟨false, "global_kill_switch"⟩ :=
  ⟨kill_switch_default_off.1 none,
    kill_switch_default_off.2.1 (RiskEngine.init none) ⟨"s", "m", "o", "buy", 1, []⟩ 0 0 0 0
      (kill_switch_default_off.1 none)⟩


theorem dictSet_ne_nil (d : List (String × ℚ)) (k : String) (v : ℚ) :
    dictSet d k v ≠ [] := by simp [dictSet]

theorem dictSet_lookup_self (d : List (String × ℚ)) (k : String) (v : ℚ) :
    (dictSet d k v).lookup k = some v := by
  induction d with
  | nil => simp [dictSet, List.lookup]
  | cons a t ih =>
      by_cases h : a.1 = k
      · simpa [dictSet, h] using ih
      · have hb : (k == a.1) = false := beq_eq_false_iff_ne.mpr (Ne.symm h)
        simpa [dictSet, h, List.lookup, hb] using ih

theorem dictSet_lookup_ne (d : List (String × ℚ)) (k m : String) (v : ℚ) (h : m ≠ k) :
    (dictSet d k v).lookup m = d.lookup m := by
  induction d with
  | nil =>
      have hb : (m == k) = false := beq_eq_false_iff_ne.mpr h
      simp [dictSet, List.lookup, hb]
  | cons a t ih =>
      obtain ⟨a1, a2⟩ := a
      by_cases ha : a1 = k
      · subst ha
        have hb : (m == a1) = false := beq_eq_false_iff_ne.mpr h
        simp only [dictSet, List.lookup, List.filter] at ih ⊢
        simp only [hb]
        simpa using ih
      · simp only [dictSet, List.lookup, List.filter] at ih ⊢
        have hd : (decide ¬(a1 = k)) = true := by simp [ha]
        simp only [hd, Bool.not_false, List.cons_append, List.lookup]
        cases hbm : (m == a1) with
        | true => rfl
        | false => simpa using ih

theorem strategyParam_data (n : String) :
    strategyParam ("strategy." ++ n) = some n := by
  have hd : ("strategy." ++ n).data = "strategy.".data ++ n.data := String.data_append _ _
  have h9 : "strategy.".data.length = 9 := rfl
  rw [strategyParam, hd, ← h9, List.take_left, List.drop_left]
  simp


theorem cap_for_strategy_access_unshadowed (l : RiskLimits) (s : String)
    (h : l.shadow = []) : l.cap_for_strategy_access s = l.cap_for_strategy s := by
  simp [RiskLimits.cap_for_strategy_access, h, List.lookup]

theorem set_limit_shadows_class_attr (e : RiskEngine) (p : String) (v : ℚ)
    (hv : 0 ≤ v) (hp : p ∈ riskLimitsClassAttrs) :
    e.set_limit p v = Except.ok (true,
      { e with limits := { e.limits with shadow := dictSet e.limits.shadow p v } }) := by
  have hattr : ∀ q ∈ riskLimitsClassAttrs, strategyParam q = none
      ∧ q ≠ "max_position_size" ∧ q ≠ "max_order_size" ∧ q ≠ "max_open_positions"
      ∧ q ≠ "max_daily_loss" ∧ q ≠ "strategy_caps" := by decide
  obtain ⟨hsp, h1, h2, h3, h4, h5⟩ := hattr p hp
  simp [RiskEngine.set_limit, not_lt.mpr hv, hsp, h1, h2, h3, h4, h5, hp]

theorem set_limit_guarded_attrs (e : RiskEngine) (v : ℚ) (hv : 0 ≤ v) :
    e.set_limit ("__class__") v =
      Except.error ("TypeError: class attribute must be set to a class")
    ∧ e.set_limit ("__dict__") v =
      Except.error ("TypeError: dict attribute must be set to a dictionary")
    ∧ e.set_limit ("__weakref__") v =
      Except.error ("AttributeError: weakref attribute is not writable") := by
  have hnot : ¬ v < 0 := not_lt.mpr hv
  refine ⟨?_, ?_, ?_⟩
  · simp [RiskEngine.set_limit, hnot, show strategyParam ("__class__") = none from rfl,
      (by decide : ¬ (("__class__" : String) ∈ riskLimitsClassAttrs))]
  · simp [RiskEngine.set_limit, hnot, show strategyParam ("__dict__") = none from rfl,
      (by decide : ¬ (("__dict__" : String) ∈ riskLimitsClassAttrs))]
  · simp [RiskEngine.set_limit, hnot, show strategyParam ("__weakref__") = none from rfl,
      (by decide : ¬ (("__weakref__" : String) ∈ riskLimitsClassAttrs))]

/-- C8 counterexample: `set_limit("cap_for_strategy", 12.5)` is accepted —
Python's `hasattr` is true for the method, `isinstance(method, int)` is
false, and `setattr` shadows the method with the float — so the call
returns success and mutates the limits object, after which the instance's
`cap_for_strategy` is a bare float and calling it raises `TypeError`;
and `set_limit("__class__", 12.5)` makes `setattr` itself raise.  Both
contradict the claim that every unrecognized name fails without mutation
and that the setter never raises. -/
theorem set_limit_hasattr_counterexample :
    (RiskEngine.init none).set_limit ("cap_for_strategy") 12.5 =
      Except.ok (true, ⟨⟨100, 50, 10, 100, CapsVal.pynone, [("cap_for_strategy", 12.5)]⟩, false⟩)
    ∧ RiskLimits.cap_for_strategy_access
        ⟨100, 50, 10, 100, CapsVal.pynone, [("cap_for_strategy", 12.5)]⟩ ("vegas_value") =
      Except.error ("TypeError: float object is not callable")
    ∧ (RiskEngine.init none).set_limit ("__class__") 12.5 =
      Except.error ("TypeError: class attribute must be set to a class") := by
  refine ⟨?_, ?_, ?_⟩
  · have h := set_limit_shadows_class_attr (RiskEngine.init none) ("cap_for_strategy") 12.5
      (by norm_num) (by decide)
    simpa [RiskEngine.init, RiskLimits.default, dictSet] using h
  · norm_num [RiskLimits.cap_for_strategy_access, List.lookup]
  · exact (set_limit_guarded_attrs (RiskEngine.init none) 12.5 (by norm_num)).1

/-- C8 (amended): `RiskEngine.set_limit` validates as claimed on the limit
namespace proper — a negative value fails, `strategy.<name>` sets that
strategy's cap (empty name fails), a recognized limit field is set with
the integer field truncated, a name that is no attribute of the limits
object fails, and every failure return leaves the engine unchanged, with
scenario D holding — but the `hasattr` dispatch also accepts every
non-field attribute of the object: such a name (the `cap_for_strategy`
method or an inherited dunder) is shadowed with the bare float and the
call reports success, corrupting the object, and the interpreter-managed
attributes `__class__`, `__dict__` and `__weakref__` make the setter
raise. -/
theorem set_limit_validation_amended :
    (∀ (e : RiskEngine) (p : String) (v : ℚ), v < 0 → e.set_limit p v = Except.ok (false, e))
    ∧ (∀ (e : RiskEngine) (n : String) (v : ℚ), 0 ≤ v → n ≠ "" → WfCaps e.limits →
        ∃ e', e.set_limit ("strategy." ++ n) v = Except.ok (true, e')
          ∧ e'.limits.cap_for_strategy n = Except.ok v
          ∧ (∀ m, m ≠ n → e'.limits.cap_for_strategy m = e.limits.cap_for_strategy m))
    ∧ (∀ (e : RiskEngine) (v : ℚ), e.set_limit ("strategy.") v = Except.ok (false, e))
    ∧ (∀ (e : RiskEngine) (v : ℚ), 0 ≤ v →
        e.set_limit ("max_position_size") v =
          Except.ok (true, { e with limits := { e.limits with max_position_size := v } })
        ∧ e.set_limit ("max_order_size") v =
          Except.ok (true, { e with limits := { e.limits with max_order_size := v } })
        ∧ e.set_limit ("max_open_positions") v =
          Except.ok (true, { e with limits := { e.limits with max_open_positions := pyInt v } })
        ∧ e.set_limit ("max_daily_loss") v =
          Except.ok (true, { e with limits := { e.limits with max_daily_loss := v } }))
    ∧ (∀ (e : RiskEngine) (p : String) (v : ℚ), strategyParam p = none →
        p ∉ ["max_position_size", "max_order_size", "max_open_positions", "max_daily_loss",
          "strategy_caps"] →
        p ∉ riskLimitsClassAttrs → p ∉ ["__class__", "__dict__", "__weakref__"] →
        e.set_limit p v = Except.ok (false, e))
    ∧ (∀ (e : RiskEngine) (p : String) (v : ℚ), WfCaps e.limits →
        p ∉ ["__class__", "__dict__", "__weakref__"] →
        ∃ b e', e.set_limit p v = Except.ok (b, e'))
    ∧ (∀ (e : RiskEngine) (p : String) (v : ℚ) (e' : RiskEngine),
        e.set_limit p v = Except.ok (false, e') → e' = e)
    ∧ (∃ e1 : RiskEngine,
        (RiskEngine.init none).set_limit ("strategy.vegas_value") 12.5 = Except.ok (true, e1)
        ∧ e1.set_limit ("strategy.vegas_value") (-1) = Except.ok (false, e1)
        ∧ e1.limits.cap_for_strategy ("vegas_value") = Except.ok 12.5)
    ∧ (∀ (e : RiskEngine) (p : String) (v : ℚ), 0 ≤ v → p ∈ riskLimitsClassAttrs →
        e.set_limit p v = Except.ok (true,
          { e with limits := { e.limits with shadow := dictSet e.limits.shadow p v } }))
    ∧ (∀ (e : RiskEngine) (v : ℚ), 0 ≤ v →
        ∃ e', e.set_limit ("cap_for_strategy") v = Except.ok (true, e')
          ∧ ∀ m, e'.limits.cap_for_strategy_access m =
              Except.error ("TypeError: float object is not callable"))
    ∧ (∀ (e : RiskEngine) (v : ℚ), 0 ≤ v →
        e.set_limit ("__class__") v =
          Except.error ("TypeError: class attribute must be set to a class")
        ∧ e.set_limit ("__dict__") v =
          Except.error ("TypeError: dict attribute must be set to a dictionary")
        ∧ e.set_limit ("__weakref__") v =
          Except.error ("AttributeError: weakref attribute is not writable")) := by
  refine ⟨?_, ?_, ?_, ?_, ?_, ?_, ?_, ?_,
    fun e p v hv hp => set_limit_shadows_class_attr e p v hv hp, ?_,
    fun e v hv => set_limit_guarded_attrs e v hv⟩
  · intro e p v hv
    simp [RiskEngine.set_limit, hv]
  · intro e n v hv hn hwf
    have hnot : ¬ v < 0 := not_lt.mpr hv
    cases hc : e.limits.strategy_caps with
    | pynone =>
        refine ⟨{ e with limits := { e.limits with strategy_caps := CapsVal.dict (dictSet [] n v) } },
          ?_, ?_, ?_⟩
        · simp [RiskEngine.set_limit, hnot, strategyParam_data, hn, hc]
        · simp [RiskLimits.cap_for_strategy, dictSet_ne_nil, dictSet_lookup_self]
        · intro m hm
          simp [RiskLimits.cap_for_strategy, dictSet_ne_nil, dictSet_lookup_ne _ _ _ _ hm, hc,
            List.lookup, beq_eq_false_iff_ne.mpr hm]
    | dict d =>
        refine ⟨{ e with limits := { e.limits with strategy_caps := CapsVal.dict (dictSet d n v) } },
          ?_, ?_, ?_⟩
        · simp [RiskEngine.set_limit, hnot, strategyParam_data, hn, hc]
        · simp [RiskLimits.cap_for_strategy, dictSet_ne_nil, dictSet_lookup_self]
        · intro m hm
          by_cases hd : d = []
          · subst hd
            simp [RiskLimits.cap_for_strategy, dictSet_ne_nil, dictSet_lookup_ne _ _ _ _ hm,
              List.lookup, hc, beq_eq_false_iff_ne.mpr hm]
          · simp only [RiskLimits.cap_for_strategy, hc]
            rw [if_neg (dictSet_ne_nil d n v), if_neg hd, dictSet_lookup_ne _ _ _ _ hm]
    | num q => exact absurd hc (hwf q)
  · intro e v
    by_cases hv : v < 0 <;>
      simp [RiskEngine.set_limit, hv, show strategyParam ("strategy.") = some ("") from rfl]
  · intro e v hv
    have hnot : ¬ v < 0 := not_lt.mpr hv
    refine ⟨?_, ?_, ?_, ?_⟩ <;>
      simp [RiskEngine.set_limit, hnot,
        show ∀ p, strategyParam p = strategyParam p from fun _ => rfl] <;>
      rfl
  · intro e p v hsp hmem hattrmem hspecial
    simp at hmem hspecial
    obtain ⟨h1, h2, h3, h4, h5⟩ := hmem
    obtain ⟨hcl, hdc, hwr⟩ := hspecial
    by_cases hv : v < 0
    · simp [RiskEngine.set_limit, hv]
    · simp [RiskEngine.set_limit, hv, hsp, h1, h2, h3, h4, h5, hattrmem, hcl, hdc, hwr]
  · intro e p v hwf hspecial
    simp at hspecial
    obtain ⟨hcl, hdc, hwr⟩ := hspecial
    unfold RiskEngine.set_limit
    repeat' split
    all_goals try exact ⟨_, _, rfl⟩
    all_goals simp_all [WfCaps]
  · intro e p v e' h
    unfold RiskEngine.set_limit at h
    repeat' split at h
    all_goals simp_all
  · refine ⟨⟨⟨100, 50, 10, 100, CapsVal.dict [("vegas_value", 12.5)], []⟩, false⟩, ?_, ?_, ?_⟩
    · norm_num [RiskEngine.set_limit, RiskEngine.init, RiskLimits.default, strategyParam, dictSet,
        List.lookup]
      decide
    · norm_num [RiskEngine.set_limit]
    · norm_num [RiskLimits.cap_for_strategy, List.lookup]
  · intro e v hv
    refine ⟨_, set_limit_shadows_class_attr e ("cap_for_strategy") v hv (by decide), ?_⟩
    intro m
    simp [RiskLimits.cap_for_strategy_access, dictSet_lookup_self]

/-- C8 witness: the amended setter theorem applied concretely — a negative
value for a recognized field fails and leaves the default engine
unchanged. -/
theorem set_limit_validation_amended_witness :
    (RiskEngine.init none).set_limit ("max_order_size") (-1) =
      Except.ok (false, RiskEngine.init none) :=
  set_limit_validation_amended.1 (RiskEngine.init none) ("max_order_size") (-1) (by norm_num)

/-- C10 counterexample: after `set_limit("strategy_caps", 1)` succeeds and
corrupts the cap mapping, an `evaluate` on the (still disabled) engine
does **not** raise `TypeError` — it returns the kill-switch rejection, so
the claim that any call to evaluate raises a TypeError is false as
stated. -/
theorem strategy_caps_corruption_counterexample :
    (RiskEngine.init none).set_limit ("strategy_caps") 1 =
      Except.ok (true, ⟨⟨100, 50, 10, 100, CapsVal.num 1, []⟩, false⟩)
    ∧ RiskEngine.evaluate ⟨⟨100, 50, 10, 100, CapsVal.num 1, []⟩, false⟩
        ⟨"s", "m", "o", "buy", 1, []⟩ 0 0 0 0 =
      Except.ok ⟨false, "global_kill_switch"⟩ := by
  constructor
  · norm_num [RiskEngine.set_limit, RiskEngine.init, RiskLimits.default,
      show strategyParam ("strategy_caps") = none from rfl]
    rw [if_neg (by decide), if_neg (by decide), if_neg (by decide), if_neg (by decide)]
  · norm_num [RiskEngine.evaluate]

/-- C10 (amended): for strictly positive `v`, `set_limit("strategy_caps", v)`
succeeds and replaces the whole per-strategy cap mapping with the scalar
`v`; afterwards every `cap_for_strategy` call raises `TypeError`, and so
does every `evaluate` that reaches the strategy-cap check (i.e. passes
the first five checks). -/
theorem strategy_caps_corruption_amended :
    (∀ (e : RiskEngine) (v : ℚ), 0 < v →
        e.set_limit ("strategy_caps") v =
          Except.ok (true, { e with limits := { e.limits with strategy_caps := CapsVal.num v } }))
    ∧ (∀ (l : RiskLimits) (strat : String) (v : ℚ), 0 < v → l.strategy_caps = CapsVal.num v →
        l.cap_for_strategy strat = Except.error ("TypeError: argument of type float is not iterable"))
    ∧ (∀ (e : RiskEngine) (s : Signal) (current_positions : ℤ)
        (daily_pnl order_size position_size v : ℚ), 0 < v →
        e.limits.strategy_caps = CapsVal.num v →
        e.trading_enabled = true →
        ¬ daily_pnl ≤ -e.limits.max_daily_loss →
        ¬ (0 < order_size ∧ e.limits.max_order_size < order_size) →
        ¬ e.limits.max_position_size < position_size + order_size →
        ¬ e.limits.max_open_positions ≤ current_positions →
        e.evaluate s current_positions daily_pnl order_size position_size =
          Except.error ("TypeError: argument of type float is not iterable")) := by
  refine ⟨?_, ?_, ?_⟩
  · intro e v hv
    have hnot : ¬ v < 0 := not_lt.mpr hv.le
    simp [RiskEngine.set_limit, hnot, show strategyParam ("strategy_caps") = none from rfl]
  · intro l strat v hv hc
    simp [RiskLimits.cap_for_strategy, hc, hv.ne']
  · intro e s cp pnl osz psz v hv hc htrad hpnl hosz hpos hcp
    simp [RiskEngine.evaluate, htrad, hpnl, hosz, hpos, hcp, RiskLimits.cap_for_strategy, hc, hv.ne']

/-- C10 witness: the amended corruption theorem applied on a concrete
enabled engine: the corrupting call succeeds, and both the cap lookup and
a within-limits evaluation raise. -/
theorem strategy_caps_corruption_amended_witness :
    (⟨⟨100, 50, 10, 100, CapsVal.pynone, []⟩, true⟩ : RiskEngine).set_limit ("strategy_caps") 1 =
      Except.ok (true, ⟨⟨100, 50, 10, 100, CapsVal.num 1, []⟩, true⟩)
    ∧ RiskLimits.cap_for_strategy ⟨100, 50, 10, 100, CapsVal.num 1, []⟩ ("vegas_value") =
        Except.error ("TypeError: argument of type float is not iterable")
    ∧ RiskEngine.evaluate ⟨⟨100, 50, 10, 100, CapsVal.num 1, []⟩, true⟩
        ⟨"s", "m", "o", "buy", 1, []⟩ 0 0 0 0 =
      Except.error ("TypeError: argument of type float is not iterable") :=
  ⟨strategy_caps_corruption_amended.1 ⟨⟨100, 50, 10, 100, CapsVal.pynone, []⟩, true⟩ 1 (by norm_num),
    strategy_caps_corruption_amended.2.1 ⟨100, 50, 10, 100, CapsVal.num 1, []⟩ ("vegas_value") 1
      (by norm_num) rfl,
    strategy_caps_corruption_amended.2.2 ⟨⟨100, 50, 10, 100, CapsVal.num 1, []⟩, true⟩
      ⟨"s", "m", "o", "buy", 1, []⟩ 0 0 0 0 1 (by norm_num) rfl rfl (by norm_num) (by norm_num)
      (by norm_num) (by norm_num)⟩


theorem pyRoundHalfEven_bounds (q : ℚ) :
    ⌊q⌋ ≤ pyRoundHalfEven q ∧ pyRoundHalfEven q ≤ ⌊q⌋ + 1 := by
  unfold pyRoundHalfEven
  split_ifs <;> omega

theorem pyRoundHalfEven_mono {q r : ℚ} (h : q ≤ r) :
    pyRoundHalfEven q ≤ pyRoundHalfEven r := by
  by_cases hf : ⌊q⌋ = ⌊r⌋
  · unfold pyRoundHalfEven
    rw [hf]
    have hq : q - (⌊r⌋ : ℚ) ≤ r - (⌊r⌋ : ℚ) := by linarith
    split_ifs <;> first | omega | (exfalso; linarith)
  · have hlt : ⌊q⌋ < ⌊r⌋ := lt_of_le_of_ne (Int.floor_le_floor h) hf
    have h1 := (pyRoundHalfEven_bounds q).2
    have h2 := (pyRoundHalfEven_bounds r).1
    omega

theorem pyRoundHalfEven_intCast (n : ℤ) : pyRoundHalfEven (n : ℚ) = n := by
  unfold pyRoundHalfEven
  rw [Int.floor_intCast]
  norm_num

theorem round2_mono {q r : ℚ} (h : q ≤ r) : round2 q ≤ round2 r := by
  unfold round2
  have h1 := pyRoundHalfEven_mono (by linarith : q * 100 ≤ r * 100)
  have h2 : (pyRoundHalfEven (q * 100) : ℚ) ≤ (pyRoundHalfEven (r * 100) : ℚ) := by
    exact_mod_cast h1
  linarith

theorem round2_twoDp {q : ℚ} (h : TwoDp q) : round2 q = q := by
  obtain ⟨n, rfl⟩ := h
  unfold round2
  have hn : ((n : ℚ) / 100) * 100 = (n : ℚ) := by field_simp
  rw [hn, pyRoundHalfEven_intCast]

theorem confidence_factor_mono {c1 c2 : ℚ} (h : c1 ≤ c2) :
    confidence_factor c1 ≤ confidence_factor c2 := by
  unfold confidence_factor
  have hl : 0.5 + (c1 - 0.6) * (1.5 / 0.4) ≤ 0.5 + (c2 - 0.6) * (1.5 / 0.4) := by nlinarith
  exact max_le_max le_rfl (min_le_min le_rfl hl)

theorem confidence_factor_bounds (c : ℚ) :
    0.5 ≤ confidence_factor c ∧ confidence_factor c ≤ 2 :=
  ⟨le_max_left _ _, max_le (by norm_num) ((min_le_left _ _).trans (by norm_num))⟩

theorem confidence_factor_linear {c : ℚ} (h1 : 0.6 ≤ c) (h2 : c ≤ 1) :
    confidence_factor c = 0.5 + (c - 0.6) * (1.5 / 0.4) := by
  unfold confidence_factor
  have ha : (0.5 : ℚ) ≤ 0.5 + (c - 0.6) * (1.5 / 0.4) := by nlinarith
  have hb : 0.5 + (c - 0.6) * (1.5 / 0.4) ≤ (2.0 : ℚ) := by nlinarith
  rw [min_eq_right hb, max_eq_right ha]

theorem confidence_factor_low {c : ℚ} (h : c < 0.6) : confidence_factor c = 0.5 := by
  unfold confidence_factor
  have hx : 0.5 + (c - 0.6) * (1.5 / 0.4) ≤ (0.5 : ℚ) := by nlinarith
  rw [min_eq_right (by linarith : 0.5 + (c - 0.6) * (1.5 / 0.4) ≤ (2.0 : ℚ)), max_eq_left hx]

theorem confidence_factor_high {c : ℚ} (h : 1 < c) : confidence_factor c = 2 := by
  unfold confidence_factor
  have hx : (2.0 : ℚ) ≤ 0.5 + (c - 0.6) * (1.5 / 0.4) := by nlinarith
  rw [min_eq_left hx]
  norm_num


theorem calculate_order_size_eq (e : ExecutionEngine) (s : Signal) (cap : ℚ)
    (hcap : e.limits.cap_for_strategy s.strategy = Except.ok cap) :
    e.calculate_order_size s = Except.ok (round2 (max e.sizing.min_size (min e.sizing.max_size
      (min (if e.sizing.confidence_scaling then e.sizing.base_size * confidence_factor s.confidence
            else e.sizing.base_size) cap)))) := by
  simp only [ExecutionEngine.calculate_order_size, hcap]

/-- C6 counterexample: with the default sizing (`min_size = 1`) and a
strategy cap of `0.5`, the computed order size is `1`, which exceeds the
applicable strategy cap — the `[min_size, max_size]` clamp is applied
after the cap and wins. -/
theorem order_size_cap_counterexample :
    (ExecutionEngine.init none (some ⟨100, 50, 10, 100, CapsVal.dict [("s", 0.5)], []⟩)
        none).calculate_order_size ⟨"s", "m", "o", "buy", 0.7, []⟩ = Except.ok 1
    ∧ RiskLimits.cap_for_strategy ⟨100, 50, 10, 100, CapsVal.dict [("s", 0.5)], []⟩ ("s") =
        Except.ok 0.5
    ∧ ¬ ((1 : ℚ) ≤ 0.5) := by
  refine ⟨?_, ?_, by norm_num⟩
  · norm_num [ExecutionEngine.init, ExecutionEngine.calculate_order_size, OrderSizing.default,
      RiskLimits.cap_for_strategy, List.lookup, confidence_factor, round2, pyRoundHalfEven,
      DEFAULT_ORDER_SIZE]
  · norm_num [RiskLimits.cap_for_strategy, List.lookup]

/-- C6 (amended): the order-size computation never fails as long as the
cap lookup is intact, and the result lies in `[min_size, max_size]` and
under the applicable strategy cap provided `min_size ≤ max_size`,
`min_size ≤ cap`, and the three bounds are exact two-decimal values; when
the cap is below `min_size` the final clamp overrides it (see the
counterexample). -/
theorem order_size_bounds_amended :
    (∀ (e : ExecutionEngine) (s : Signal) (cap : ℚ),
        e.limits.cap_for_strategy s.strategy = Except.ok cap →
        ∃ r, e.calculate_order_size s = Except.ok r)
    ∧ (∀ (e : ExecutionEngine) (s : Signal) (cap : ℚ),
        e.limits.cap_for_strategy s.strategy = Except.ok cap →
        TwoDp e.sizing.min_size → TwoDp e.sizing.max_size → TwoDp cap →
        e.sizing.min_size ≤ e.sizing.max_size → e.sizing.min_size ≤ cap →
        ∃ r, e.calculate_order_size s = Except.ok r ∧
          e.sizing.min_size ≤ r ∧ r ≤ e.sizing.max_size ∧ r ≤ cap) := by
  constructor
  · intro e s cap hcap
    exact ⟨_, calculate_order_size_eq e s cap hcap⟩
  · intro e s cap hcap hmn hmx hcp hmnmx hmncap
    refine ⟨_, calculate_order_size_eq e s cap hcap, ?_, ?_, ?_⟩
    · calc e.sizing.min_size = round2 e.sizing.min_size := (round2_twoDp hmn).symm
        _ ≤ _ := round2_mono (le_max_left _ _)
    · calc round2 _ ≤ round2 e.sizing.max_size :=
            round2_mono (max_le hmnmx (min_le_left _ _))
        _ = e.sizing.max_size := round2_twoDp hmx
    · calc round2 _ ≤ round2 cap :=
            round2_mono (max_le hmncap ((min_le_right _ _).trans (min_le_right _ _)))
        _ = cap := round2_twoDp hcp

/-- C6 witness: the amended bounds theorem applied to the default engine
and a concrete signal; the bounds `1`, `100` and cap `50` are two-decimal
values. -/
theorem order_size_bounds_amended_witness :
    ∃ r, (ExecutionEngine.init none none none).calculate_order_size
        ⟨"s", "m", "o", "buy", 0.7, []⟩ = Except.ok r
      ∧ (ExecutionEngine.init none none none).sizing.min_size ≤ r
      ∧ r ≤ (ExecutionEngine.init none none none).sizing.max_size
      ∧ r ≤ 50 :=
  order_size_bounds_amended.2 (ExecutionEngine.init none none none) ⟨"s", "m", "o", "buy", 0.7, []⟩
    50 (by norm_num [ExecutionEngine.init, RiskLimits.default, RiskLimits.cap_for_strategy])
    ⟨100, by norm_num [ExecutionEngine.init, OrderSizing.default]⟩
    ⟨10000, by norm_num [ExecutionEngine.init, OrderSizing.default]⟩
    ⟨5000, by norm_num⟩
    (by norm_num [ExecutionEngine.init, OrderSizing.default])
    (by norm_num [ExecutionEngine.init, OrderSizing.default])

/-- C7: with confidence scaling enabled and a non-negative base size the
computed order size is monotonically non-decreasing in the signal's
confidence on `[0.6, 1.0]`, and the confidence factor is the linear ramp
from `0.5×` at `0.6` to `2.0×` at `1.0`, clamped to `[0.5, 2.0]` outside
that domain. -/
theorem order_size_monotone_confidence :
    (∀ (e : ExecutionEngine) (s1 s2 : Signal) (cap : ℚ),
        e.sizing.confidence_scaling = true → 0 ≤ e.sizing.base_size →
        s1.strategy = s2.strategy →
        e.limits.cap_for_strategy s1.strategy = Except.ok cap →
        0.6 ≤ s1.confidence → s1.confidence ≤ s2.confidence → s2.confidence ≤ 1 →
        ∃ r1 r2, e.calculate_order_size s1 = Except.ok r1 ∧
          e.calculate_order_size s2 = Except.ok r2 ∧ r1 ≤ r2)
    ∧ (∀ c : ℚ, 0.6 ≤ c → c ≤ 1 → confidence_factor c = 0.5 + (c - 0.6) * (1.5 / 0.4))
    ∧ confidence_factor 0.6 = 0.5
    ∧ confidence_factor 1 = 2
    ∧ (∀ c : ℚ, c < 0.6 → confidence_factor c = 0.5)
    ∧ (∀ c : ℚ, 1 < c → confidence_factor c = 2)
    ∧ (∀ c : ℚ, 0.5 ≤ confidence_factor c ∧ confidence_factor c ≤ 2) := by
  refine ⟨?_, fun c h1 h2 => confidence_factor_linear h1 h2, ?_, ?_,
    fun c h => confidence_factor_low h, fun c h => confidence_factor_high h,
    fun c => confidence_factor_bounds c⟩
  · intro e s1 s2 cap hcs hbase hstrat hcap h06 h12 h21
    have hcap2 : e.limits.cap_for_strategy s2.strategy = Except.ok cap := hstrat ▸ hcap
    refine ⟨_, _, calculate_order_size_eq e s1 cap hcap, calculate_order_size_eq e s2 cap hcap2, ?_⟩
    rw [hcs]
    simp only [if_true]
    exact round2_mono (max_le_max le_rfl (min_le_min le_rfl (min_le_min
      (mul_le_mul_of_nonneg_left (confidence_factor_mono h12) hbase) le_rfl)))
  · rw [confidence_factor_linear (by norm_num) (by norm_num)]
    norm_num
  · rw [confidence_factor_linear (by norm_num) (by norm_num)]
    norm_num

/-- C7 witness: the monotonicity theorem applied to the default engine at
confidences `0.7 ≤ 0.9`. -/
theorem order_size_monotone_confidence_witness :
    ∃ r1 r2, (ExecutionEngine.init none none none).calculate_order_size
        ⟨"s", "m", "o", "buy", 0.7, []⟩ = Except.ok r1
      ∧ (ExecutionEngine.init none none none).calculate_order_size
          ⟨"s", "m", "o", "buy", 0.9, []⟩ = Except.ok r2
      ∧ r1 ≤ r2 :=
  order_size_monotone_confidence.1 (ExecutionEngine.init none none none)
    ⟨"s", "m", "o", "buy", 0.7, []⟩ ⟨"s", "m", "o", "buy", 0.9, []⟩ 50 rfl
    (by norm_num [ExecutionEngine.init, OrderSizing.default, DEFAULT_ORDER_SIZE]) rfl
    (by norm_num [ExecutionEngine.init, RiskLimits.default, RiskLimits.cap_for_strategy])
    (by norm_num) (by norm_num) (by norm_num)


theorem calculate_order_size_db_irrel (e : ExecutionEngine) (db' : Option DbState) (s : Signal) :
    ExecutionEngine.calculate_order_size { e with db := db' } s = e.calculate_order_size s := rfl

theorem submit_mem_fresh (e : ExecutionEngine) (s : Signal) (d : RiskDecision)
    (cp : Option ℚ) (fid : String) (now sz : ℚ)
    (hdb : e.db = none) (hd : d.approved = true)
    (hkey : e.idempotency_keys.contains (idemKey s) = false)
    (hsz : e.calculate_order_size s = Except.ok sz)
    (hcp : ∀ c, cp = some c →
      within_slippage (ExecutionEngine.get_target_price s) c DEFAULT_MAX_SLIPPAGE = true) :
    e.submit s d cp fid now = Except.ok
      (⟨some ⟨fid, s.market_id, s.outcome_id, s.action, ExecutionEngine.get_target_price s, sz,
          if e.paper then ("paper") else ("submitted")⟩, "submitted", "ok"⟩,
        { e with idempotency_keys := e.idempotency_keys ++ [idemKey s],
                 open_orders := e.open_orders ++
                   [(fid, ⟨fid, s.market_id, s.outcome_id, s.action,
                      ExecutionEngine.get_target_price s, sz,
                      if e.paper then ("paper") else ("submitted")⟩)] }) := by
  have hmem : idemKey s ∉ e.idempotency_keys := by simpa using hkey
  cases cp with
  | none =>
      simp [ExecutionEngine.submit, hd, ExecutionEngine.check_idempotency, hdb, hmem, hsz,
        ExecutionEngine.submitFinish, ExecutionEngine.save_idempotency]
  | some c =>
      simp [ExecutionEngine.submit, hd, ExecutionEngine.check_idempotency, hdb, hmem, hsz,
        hcp c rfl, ExecutionEngine.submitFinish, ExecutionEngine.save_idempotency]

theorem submit_mem_seen (e : ExecutionEngine) (s : Signal) (d : RiskDecision)
    (cp : Option ℚ) (fid : String) (now : ℚ)
    (hdb : e.db = none) (hd : d.approved = true)
    (hkey : e.idempotency_keys.contains (idemKey s) = true) :
    e.submit s d cp fid now =
      Except.ok (⟨none, "duplicate", "idempotent_key"⟩, e) := by
  have hmem : idemKey s ∈ e.idempotency_keys := by simpa using hkey
  simp [ExecutionEngine.submit, hd, ExecutionEngine.check_idempotency, hdb, hmem]

theorem submit_mem_slippage (e : ExecutionEngine) (s : Signal) (d : RiskDecision)
    (c : ℚ) (fid : String) (now sz : ℚ)
    (hdb : e.db = none) (hd : d.approved = true)
    (hkey : e.idempotency_keys.contains (idemKey s) = false)
    (hsz : e.calculate_order_size s = Except.ok sz)
    (hc : within_slippage (ExecutionEngine.get_target_price s) c DEFAULT_MAX_SLIPPAGE = false) :
    e.submit s d (some c) fid now = Except.ok
      (⟨none, "rejected", "slippage_exceeded: target=" ++ fmt3 (ExecutionEngine.get_target_price s)
          ++ ", current=" ++ fmt3 c⟩, e) := by
  have hmem : idemKey s ∉ e.idempotency_keys := by simpa using hkey
  simp [ExecutionEngine.submit, hd, ExecutionEngine.check_idempotency, hdb, hmem, hsz, hc]

theorem submit_db_fresh (e : ExecutionEngine) (db : DbState) (s : Signal) (d : RiskDecision)
    (fid : String) (now sz : ℚ)
    (hdb : e.db = some db) (hd : d.approved = true)
    (hkey : (db.check_idempotency_key (idemKey s) now).1 = false)
    (hsz : e.calculate_order_size s = Except.ok sz) :
    e.submit s d none fid now = Except.ok
      (⟨some ⟨fid, s.market_id, s.outcome_id, s.action, ExecutionEngine.get_target_price s, sz,
          if e.paper then ("paper") else ("submitted")⟩, "submitted", "ok"⟩,
        { e with db := some (((db.check_idempotency_key (idemKey s) now).2.add_idempotency_key
            (idemKey s) now 24).save_order
            ⟨fid, s.market_id, s.outcome_id, s.action, ExecutionEngine.get_target_price s, sz,
              if e.paper then ("paper") else ("submitted"), some s.strategy⟩) }) := by
  simp [ExecutionEngine.submit, hd, ExecutionEngine.check_idempotency, hdb, hkey,
    calculate_order_size_db_irrel, hsz, ExecutionEngine.submitFinish,
    ExecutionEngine.save_idempotency]

theorem submit_db_seen (e : ExecutionEngine) (db : DbState) (s : Signal) (d : RiskDecision)
    (cp : Option ℚ) (fid : String) (now : ℚ)
    (hdb : e.db = some db) (hd : d.approved = true)
    (hkey : (db.check_idempotency_key (idemKey s) now).1 = true) :
    e.submit s d cp fid now = Except.ok (⟨none, "duplicate", "idempotent_key"⟩,
      { e with db := some (db.check_idempotency_key (idemKey s) now).2 }) := by
  simp [ExecutionEngine.submit, hd, ExecutionEngine.check_idempotency, hdb, hkey]


/-- C3: submitting two approved signals with the same
`(strategy, market_id, outcome_id, action)` tuple in sequence on a fresh
in-memory engine returns `submitted` then `duplicate`/`idempotent_key`;
the duplicate call returns the engine state unchanged and exactly one
order exists afterwards. -/
theorem submit_duplicate_idempotent :
    ∀ (l : Option RiskLimits) (z : Option OrderSizing) (s1 s2 : Signal) (d1 d2 : RiskDecision)
      (cp1 cp2 : Option ℚ) (id1 id2 : String) (t1 t2 cap : ℚ),
      s1.strategy = s2.strategy → s1.market_id = s2.market_id →
      s1.outcome_id = s2.outcome_id → s1.action = s2.action →
      d1.approved = true → d2.approved = true →
      (l.getD RiskLimits.default).cap_for_strategy s1.strategy = Except.ok cap →
      (∀ c, cp1 = some c →
        within_slippage (ExecutionEngine.get_target_price s1) c DEFAULT_MAX_SLIPPAGE = true) →
      ∃ ord e1,
        (ExecutionEngine.init none l z).submit s1 d1 cp1 id1 t1 =
          Except.ok (⟨some ord, "submitted", "ok"⟩, e1)
        ∧ e1.submit s2 d2 cp2 id2 t2 = Except.ok (⟨none, "duplicate", "idempotent_key"⟩, e1)
        ∧ e1.open_orders.length = 1 := by
  intro l z s1 s2 d1 d2 cp1 cp2 id1 id2 t1 t2 cap hst hmk hoc hac hd1 hd2 hcap hcp1
  have hsz := calculate_order_size_eq (ExecutionEngine.init none l z) s1 cap hcap
  have h1 := submit_mem_fresh (ExecutionEngine.init none l z) s1 d1 cp1 id1 t1 _ rfl hd1 rfl hsz hcp1
  have hk : idemKey s1 = idemKey s2 := by
    unfold idemKey
    rw [hst, hmk, hoc, hac]
  refine ⟨_, _, h1, ?_, by simp [ExecutionEngine.init]⟩
  refine submit_mem_seen _ s2 d2 cp2 id2 t2 rfl hd2 ?_
  simp [ExecutionEngine.init, ← hk]

/-- C3 witness: two concrete identical signals on the default in-memory
engine: `submitted` then `duplicate`, one order in the end. -/
theorem submit_duplicate_idempotent_witness :
    ∃ ord e1,
      (ExecutionEngine.init none none none).submit ⟨"s", "m", "o", "buy", 0.7, []⟩
          ⟨true, "approved"⟩ none ("order-1") 0 = Except.ok (⟨some ord, "submitted", "ok"⟩, e1)
      ∧ e1.submit ⟨"s", "m", "o", "buy", 0.9, []⟩ ⟨true, "approved"⟩ none ("order-2") 1 =
          Except.ok (⟨none, "duplicate", "idempotent_key"⟩, e1)
      ∧ e1.open_orders.length = 1 :=
  submit_duplicate_idempotent none none ⟨"s", "m", "o", "buy", 0.7, []⟩
    ⟨"s", "m", "o", "buy", 0.9, []⟩ ⟨true, "approved"⟩ ⟨true, "approved"⟩ none none
    ("order-1") ("order-2") 0 1 50 rfl rfl rfl rfl rfl rfl rfl (by intro c h; cases h)

/-- C4: a supplied current price failing the slippage guard makes `submit`
return `rejected` with the formatted `slippage_exceeded` reason carrying
target and current price, leaving the engine (idempotency set and orders)
exactly as before, so an identical retry with an in-tolerance price
succeeds. -/
theorem submit_slippage_rejection_retryable :
    ∀ (e : ExecutionEngine) (s : Signal) (d : RiskDecision) (c : ℚ) (fid : String)
      (now cap : ℚ),
      e.db = none → d.approved = true →
      e.idempotency_keys.contains (idemKey s) = false →
      e.limits.cap_for_strategy s.strategy = Except.ok cap →
      within_slippage (ExecutionEngine.get_target_price s) c DEFAULT_MAX_SLIPPAGE = false →
      e.submit s d (some c) fid now = Except.ok
        (⟨none, "rejected", "slippage_exceeded: target=" ++
            fmt3 (ExecutionEngine.get_target_price s) ++ ", current=" ++ fmt3 c⟩, e)
      ∧ (∀ (c2 : ℚ) (fid2 : String) (now2 : ℚ),
          within_slippage (ExecutionEngine.get_target_price s) c2 DEFAULT_MAX_SLIPPAGE = true →
          ∃ ord e2, e.submit s d (some c2) fid2 now2 =
            Except.ok (⟨some ord, "submitted", "ok"⟩, e2)) := by
  intro e s d c fid now cap hdb hd hkey hcap hc
  have hsz := calculate_order_size_eq e s cap hcap
  constructor
  · exact submit_mem_slippage e s d c fid now _ hdb hd hkey hsz hc
  · intro c2 fid2 now2 hc2
    exact ⟨_, _, submit_mem_fresh e s d (some c2) fid2 now2 _ hdb hd hkey hsz
      (fun x hx => by cases hx; exact hc2)⟩

/-- C4 witness: on the fresh default engine, price `0.6` against target
`0.5` is rejected with the formatted reason and the state is untouched;
a retry at `0.5` succeeds. -/
theorem submit_slippage_rejection_retryable_witness :
    (ExecutionEngine.init none none none).submit ⟨"s", "m", "o", "buy", 0.7, []⟩
        ⟨true, "approved"⟩ (some 0.6) ("order-1") 0 = Except.ok
        (⟨none, "rejected", "slippage_exceeded: target=" ++
            fmt3 (ExecutionEngine.get_target_price ⟨"s", "m", "o", "buy", 0.7, []⟩) ++
            ", current=" ++ fmt3 0.6⟩, ExecutionEngine.init none none none)
    ∧ (∀ (c2 : ℚ) (fid2 : String) (now2 : ℚ),
        within_slippage (ExecutionEngine.get_target_price ⟨"s", "m", "o", "buy", 0.7, []⟩) c2
          DEFAULT_MAX_SLIPPAGE = true →
        ∃ ord e2, (ExecutionEngine.init none none none).submit ⟨"s", "m", "o", "buy", 0.7, []⟩
          ⟨true, "approved"⟩ (some c2) fid2 now2 = Except.ok (⟨some ord, "submitted", "ok"⟩, e2)) :=
  submit_slippage_rejection_retryable (ExecutionEngine.init none none none)
    ⟨"s", "m", "o", "buy", 0.7, []⟩ ⟨true, "approved"⟩ 0.6 ("order-1") 0 50 rfl rfl rfl rfl
    (by
      norm_num [within_slippage, ExecutionEngine.get_target_price, List.lookup,
        DEFAULT_MAX_SLIPPAGE]
      rw [abs_of_pos (by norm_num : (0 : ℚ) < 1 / 10)]
      norm_num)


/-- C5 counterexample: on the in-memory fallback, re-submitting the same
signal tuple 25 hours later (past the claimed 24-hour TTL) still returns
`duplicate`, not `submitted` — the in-memory set records no expiry and
ignores the clock entirely, so the claim fails for the in-memory
fallback even though it asserts both stores behave alike. -/
theorem idempotency_expiry_claim_counterexample :
    (ExecutionEngine.init none none none).submit ⟨"s", "m", "o", "buy", 0.7, []⟩
        ⟨true, "approved"⟩ none ("order-1") 0 = Except.ok
        (⟨some ⟨"order-1", "m", "o", "buy", 0.5, 8.75, "paper"⟩, "submitted", "ok"⟩,
          { ExecutionEngine.init none none none with
              idempotency_keys := ["s:m:o:buy"],
              open_orders := [("order-1", ⟨"order-1", "m", "o", "buy", 0.5, 8.75, "paper"⟩)] })
    ∧ ExecutionEngine.submit
        { ExecutionEngine.init none none none with
            idempotency_keys := ["s:m:o:buy"],
            open_orders := [("order-1", ⟨"order-1", "m", "o", "buy", 0.5, 8.75, "paper"⟩)] }
        ⟨"s", "m", "o", "buy", 0.7, []⟩ ⟨true, "approved"⟩ none ("order-2") 25 =
      Except.ok (⟨none, "duplicate", "idempotent_key"⟩,
        { ExecutionEngine.init none none none with
            idempotency_keys := ["s:m:o:buy"],
            open_orders := [("order-1", ⟨"order-1", "m", "o", "buy", 0.5, 8.75, "paper"⟩)] }) := by
  constructor
  · norm_num [ExecutionEngine.init, ExecutionEngine.submit, ExecutionEngine.check_idempotency,
      ExecutionEngine.save_idempotency, ExecutionEngine.submitFinish,
      ExecutionEngine.calculate_order_size, ExecutionEngine.get_target_price, idemKey,
      confidence_factor, round2, pyRoundHalfEven, RiskLimits.default, OrderSizing.default,
      RiskLimits.cap_for_strategy, DEFAULT_ORDER_SIZE, List.lookup]
    decide
  · refine submit_mem_seen _ _ _ _ _ _ rfl rfl ?_
    decide

/-- C5 (amended): the durable store's membership check treats a key whose
expiry has passed exactly like a never-seen key — every expired entry is
purged before the test, so re-submitting the same tuple more than the
24-hour TTL after the first submission yields `submitted` again.  The
in-memory fallback stores bare keys with no expiry, so there a recorded
key stays a duplicate forever, whatever the clock says. -/
theorem idempotency_expiry_durable_store :
    (∀ (db : DbState) (key : String) (now : ℚ),
        (∀ p ∈ db.idempotency_keys, p.1 = key → p.2 < now) →
        (db.check_idempotency_key key now).1 = false)
    ∧ (∀ (s : Signal) (d : RiskDecision) (id1 id2 : String) (t1 t2 : ℚ),
        d.approved = true → t1 + 24 < t2 →
        ∃ ord1 e1 ord2 e2,
          (ExecutionEngine.init (some ⟨[], []⟩) none none).submit s d none id1 t1 =
            Except.ok (⟨some ord1, "submitted", "ok"⟩, e1)
          ∧ e1.submit s d none id2 t2 = Except.ok (⟨some ord2, "submitted", "ok"⟩, e2))
    ∧ (∀ (e : ExecutionEngine) (s : Signal) (d : RiskDecision) (cp : Option ℚ)
        (fid : String) (now : ℚ), e.db = none → d.approved = true →
        e.idempotency_keys.contains (idemKey s) = true →
        e.submit s d cp fid now = Except.ok (⟨none, "duplicate", "idempotent_key"⟩, e)) := by
  refine ⟨?_, ?_, fun e s d cp fid now hdb hd hk => submit_mem_seen e s d cp fid now hdb hd hk⟩
  · intro db key now h
    simp only [DbState.check_idempotency_key]
    rw [List.any_eq_false]
    intro p hp
    obtain ⟨hpm, hpe⟩ := List.mem_filter.mp hp
    simp only [decide_eq_true_eq]
    rintro ⟨hpk, hnow⟩
    exact absurd (h p hpm hpk) (not_lt.mpr hnow)
  · intro s d id1 id2 t1 t2 hd ht
    obtain ⟨sz, hsz⟩ : ∃ r, (ExecutionEngine.init (some ⟨[], []⟩) none none).calculate_order_size s
        = Except.ok r := ⟨_, calculate_order_size_eq _ s 50 rfl⟩
    have h1 := submit_db_fresh (ExecutionEngine.init (some ⟨[], []⟩) none none) ⟨[], []⟩ s d id1 t1
      sz rfl hd rfl hsz
    have hstate : ((DbState.check_idempotency_key ⟨[], []⟩ (idemKey s) t1).2.add_idempotency_key
        (idemKey s) t1 24).save_order
          ⟨id1, s.market_id, s.outcome_id, s.action, ExecutionEngine.get_target_price s, sz,
            if (ExecutionEngine.init (some ⟨[], []⟩) none none).paper then ("paper") else ("submitted"),
            some s.strategy⟩ =
        (⟨[(idemKey s, t1 + 24)],
          [⟨id1, s.market_id, s.outcome_id, s.action, ExecutionEngine.get_target_price s, sz,
            if (ExecutionEngine.init (some ⟨[], []⟩) none none).paper then ("paper") else ("submitted"),
            some s.strategy⟩]⟩ : DbState) := by
      simp [DbState.check_idempotency_key, DbState.add_idempotency_key, DbState.save_order]
    rw [hstate] at h1
    have hkey2 : (DbState.check_idempotency_key
        ⟨[(idemKey s, t1 + 24)],
          [⟨id1, s.market_id, s.outcome_id, s.action, ExecutionEngine.get_target_price s, sz,
            if (ExecutionEngine.init (some ⟨[], []⟩) none none).paper then ("paper") else ("submitted"),
            some s.strategy⟩]⟩ (idemKey s) t2).1 = false := by
      simp [DbState.check_idempotency_key, List.filter, ht]
    exact ⟨_, _, _, _, h1, submit_db_fresh _ _ s d id2 t2 sz rfl hd hkey2 hsz⟩

/-- C5 witness: the expired-key purge conjunct applied to a concrete store
holding a key that expired an hour before the check. -/
theorem idempotency_expiry_durable_store_witness :
    (DbState.check_idempotency_key ⟨[("k", 1)], []⟩ ("k") 2).1 = false :=
  idempotency_expiry_durable_store.1 ⟨[("k", 1)], []⟩ ("k") 2
    (by intro p hp hk; simp at hp; subst hp; norm_num)

/-- C9 counterexample: with a persistent store configured and an empty
orders table, `cancel_order` on an id that does not exist still returns
`true` (the UPDATE simply affects zero rows), contradicting the claim
that it returns false and changes nothing for an unknown id. -/
theorem cancel_order_db_counterexample :
    (ExecutionEngine.init (some ⟨[], []⟩) none none).cancel_order ("nonexistent-order") =
      (true, ExecutionEngine.init (some ⟨[], []⟩) none none) := by
  simp [ExecutionEngine.cancel_order, ExecutionEngine.init, DbState.update_order_status]

/-- C9 (amended): on the in-memory fallback `cancel_order` returns whether
the order was present (removing it when it is, changing nothing when it
is not); with a persistent store it issues the status update and returns
`true` unconditionally, even for an id that matches no order. -/
theorem cancel_order_amended :
    (∀ (e : ExecutionEngine) (oid : String), e.db = none →
        (e.open_orders.any (fun p => p.1 = oid) = true →
          e.cancel_order oid =
            (true, { e with open_orders := e.open_orders.filter (fun p => p.1 ≠ oid) }))
        ∧ (e.open_orders.any (fun p => p.1 = oid) = false → e.cancel_order oid = (false, e)))
    ∧ (∀ (e : ExecutionEngine) (db : DbState) (oid : String), e.db = some db →
        e.cancel_order oid =
          (true, { e with db := some (db.update_order_status oid ("cancelled")) })) := by
  constructor
  · intro e oid hdb
    constructor
    · intro h
      simp [ExecutionEngine.cancel_order, hdb, h]
    · intro h
      simp [ExecutionEngine.cancel_order, hdb, h]
  · intro e db oid hdb
    simp [ExecutionEngine.cancel_order, hdb]

/-- C9 witness: the amended cancellation theorem applied to a concrete
in-memory engine with no matching order: `false` and unchanged state. -/
theorem cancel_order_amended_witness :
    (ExecutionEngine.init none none none).cancel_order ("nonexistent-order") =
      (false, ExecutionEngine.init none none none) :=
  ((cancel_order_amended.1 (ExecutionEngine.init none none none) ("nonexistent-order") rfl).2 rfl)

end Polysport
